import Mathlib

/-!
Verification of the markle repository (Rust): a hybrid logical clock
(`src/timestamp.rs`) and a Merkle trie over timestamp minutes
(`src/trie.rs`).  Every definition below is a shallow embedding of the
corresponding Rust item; machine integers are modelled as `Nat`/`Int`
with explicit reduction modulo `2 ^ 32` where the Rust code relies on
`u32` wrap-around, and fallible Rust code (`unwrap`, `Result`) is
modelled with `Option`/`Except`.
-/

namespace Markle

/-! ### MurmurHash3 x86 32-bit, seed 0 (the `murmur3` crate's `murmur3_32`)

`Timestamp::hash` feeds the UTF-8 bytes of the canonical serialization
to `murmur3_32` with seed 0. -/

/-- 32-bit left rotation on a value already reduced modulo `2 ^ 32`. -/
def rotl32 (x r : Nat) : Nat :=
  ((x <<< r) % 4294967296) ||| (x >>> (32 - r))

/-- The per-chunk mixing of MurmurHash3 x86/32 applied to a 32-bit word
(also used verbatim for the 1-3 byte tail). -/
def mm3MixK (k : Nat) : Nat :=
  let k := (k * 0xcc9e2d51) % 4294967296
  let k := rotl32 k 15
  (k * 0x1b873593) % 4294967296

/-- One four-byte body round of MurmurHash3 x86/32. -/
def mm3Step (h k : Nat) : Nat :=
  let h := h ^^^ mm3MixK k
  let h := rotl32 h 13
  (h * 5 + 0xe6546b64) % 4294967296

/-- Processes whole little-endian four-byte chunks, then the tail. -/
def mm3Body (h : Nat) : List Nat → Nat
  | b0 :: b1 :: b2 :: b3 :: rest =>
      mm3Body (mm3Step h (b0 + 256 * b1 + 65536 * b2 + 16777216 * b3)) rest
  | [] => h
  | [b0] => h ^^^ mm3MixK b0
  | [b0, b1] => h ^^^ mm3MixK (b0 + 256 * b1)
  | [b0, b1, b2] => h ^^^ mm3MixK (b0 + 256 * b1 + 65536 * b2)

/-- Final avalanche of MurmurHash3 x86/32. -/
def mm3Fmix (h : Nat) : Nat :=
  let h := h ^^^ (h >>> 16)
  let h := (h * 0x85ebca6b) % 4294967296
  let h := h ^^^ (h >>> 13)
  let h := (h * 0xc2b2ae35) % 4294967296
  h ^^^ (h >>> 16)

/-- `murmur3::murmur3_32` over a byte list (bytes as `Nat < 256`). -/
def murmur3_32 (bytes : List Nat) (seed : Nat) : Nat :=
  mm3Fmix (mm3Body seed bytes ^^^ bytes.length % 4294967296)

/-- UTF-8 encoding of a single code point. -/
def utf8Bytes (c : Nat) : List Nat :=
  if c < 0x80 then [c]
  else if c < 0x800 then
    [0xC0 ||| (c >>> 6), 0x80 ||| (c &&& 0x3F)]
  else if c < 0x10000 then
    [0xE0 ||| (c >>> 12), 0x80 ||| ((c >>> 6) &&& 0x3F), 0x80 ||| (c &&& 0x3F)]
  else
    [0xF0 ||| (c >>> 18), 0x80 ||| ((c >>> 12) &&& 0x3F),
     0x80 ||| ((c >>> 6) &&& 0x3F), 0x80 ||| (c &&& 0x3F)]

/-- UTF-8 bytes of a string, as natural numbers. -/
def strBytes (s : String) : List Nat :=
  s.data.flatMap (fun ch => utf8Bytes ch.toNat)

/-! ### Calendar: the fragment of `chrono` used by `Timestamp::to_string`

`Timestamp::to_string` calls
`chrono::DateTime::from_timestamp_millis(millis).unwrap()` followed by
`to_rfc3339_opts(SecondsFormat::Millis, true)`.  `from_timestamp_millis`
returns `None` (so the `unwrap` panics) when the day index falls outside
chrono's date range, years `-262144 ..= 262143`. -/

/-- Day count since 1970-01-01 of a proleptic-Gregorian civil date
(the standard `days_from_civil` algorithm, used by chrono). -/
def daysFromCivil (y : Int) (m d : Nat) : Int :=
  let y := if m ≤ 2 then y - 1 else y
  let era := Int.fdiv y 400
  let yoe := (y - era * 400).toNat
  let doy := (153 * (if m > 2 then m - 3 else m + 9) + 2) / 5 + d - 1
  let doe := yoe * 365 + yoe / 4 - yoe / 100 + doy
  era * 146097 + (doe : Int) - 719468

/-- Civil date (year, month, day) of a day count since 1970-01-01. -/
def civilFromDays (z : Int) : Int × Nat × Nat :=
  let z := z + 719468
  let era := Int.fdiv z 146097
  let doe := (z - era * 146097).toNat
  let yoe := (doe - doe / 1460 + doe / 36524 - doe / 146096) / 365
  let doy := doe - (365 * yoe + yoe / 4 - yoe / 100)
  let mp := (5 * doy + 2) / 153
  let d := doy - (153 * mp + 2) / 5 + 1
  let m := if mp < 10 then mp + 3 else mp - 9
  ((yoe : Int) + era * 400 + (if m ≤ 2 then 1 else 0), m, d)

/-- First day index representable by chrono (January 1 of year -262144). -/
def chronoMinDay : Int := daysFromCivil (-262144) 1 1

/-- Last day index representable by chrono (December 31 of year 262143). -/
def chronoMaxDay : Int := daysFromCivil 262143 12 31

/-- Whether `chrono::DateTime::from_timestamp_millis` succeeds for this
millisecond value, i.e. whether its day lies in chrono's date range. -/
def inChronoRange (millis : Int) : Bool :=
  decide (chronoMinDay ≤ Int.ediv millis 86400000 ∧
          Int.ediv millis 86400000 ≤ chronoMaxDay)

/-- Decimal digits of a natural number, zero-padded on the left to `w`. -/
def padNat (w n : Nat) : String :=
  let s := toString n
  String.mk (List.replicate (w - s.length) '0') ++ s

/-- The year field of chrono's RFC 3339 output: four digits for years
0-9999, otherwise a sign followed by the zero-padded absolute value. -/
def yearString (y : Int) : String :=
  if 0 ≤ y ∧ y ≤ 9999 then padNat 4 y.toNat
  else if y < 0 then "-" ++ padNat 4 (-y).toNat
  else "+" ++ padNat 4 y.toNat

/-- `to_rfc3339_opts(SecondsFormat::Millis, true)` of an in-range
millisecond value: `YYYY-MM-DDTHH:MM:SS.mmmZ`. -/
def rfc3339Millis (millis : Int) : String :=
  let day := Int.ediv millis 86400000
  let msod := (millis - day * 86400000).toNat
  let ymd := civilFromDays day
  yearString ymd.1 ++ "-" ++ padNat 2 ymd.2.1 ++ "-" ++ padNat 2 ymd.2.2 ++
    "T" ++ padNat 2 (msod / 3600000) ++ ":" ++ padNat 2 (msod % 3600000 / 60000) ++
    ":" ++ padNat 2 (msod % 60000 / 1000) ++ "." ++ padNat 3 (msod % 1000) ++ "Z"

/-- A single upper-case hexadecimal digit. -/
def hexDigit (n : Nat) : Char :=
  if n < 10 then Char.ofNat (48 + n) else Char.ofNat (55 + n)

/-- Upper-case hexadecimal digits of `n`, least significant first.  The
`fuel` argument only bounds the recursion (structurally, so that the
kernel can evaluate it); any `fuel ≥ n` computes all digits. -/
def hexReprAux (fuel n : Nat) : List Char :=
  match fuel with
  | 0 => []
  | fuel + 1 => if n = 0 then [] else hexDigit (n % 16) :: hexReprAux fuel (n / 16)

/-- Upper-case hexadecimal digits of `n` (no padding; `"0"` for zero). -/
def hexRepr (n : Nat) : List Char :=
  if n = 0 then ['0'] else (hexReprAux n n).reverse

/-- Rust `format!("{:04X}", counter)`: upper-case hex, zero-padded to
four digits. -/
def hex4 (n : Nat) : String :=
  let s := hexRepr n
  String.mk (List.replicate (4 - s.length) '0' ++ s)

/-- Rust `format!("{:016}", node)` on a string: the `0` flag is ignored
for non-numeric arguments, so this left-aligns and pads with spaces to
width 16.  Every node id produced by `make_client_id` already has
exactly 16 characters, so the padding never fires in practice. -/
def nodePad16 (s : String) : String :=
  s ++ String.mk (List.replicate (16 - s.length) ' ')

/-! ### `Timestamp` (src/timestamp.rs) -/

/-- The HLC state and message type of `src/timestamp.rs`: `millis : i64`
(as `Int`), `counter : u16` (as `Nat`, values `0 ..= 65535`), and the
16-character node id. -/
structure Timestamp where
  millis : Int
  counter : Nat
  node : String
deriving DecidableEq

/-- `Timestamp::ts_minutes`: `self.millis / 1000 / 60` with Rust's
truncating `i64` division. -/
def Timestamp.ts_minutes (t : Timestamp) : Int :=
  Int.tdiv (Int.tdiv t.millis 1000) 60

/-- `Timestamp::to_string`: the canonical serialization
`"<rfc3339-millis>-<HEX4-counter>-<node>"`.  Returns `none` when
`from_timestamp_millis` returns `None`, in which case the Rust
`unwrap()` panics. -/
def Timestamp.to_string (t : Timestamp) : Option String :=
  if inChronoRange t.millis then
    some (rfc3339Millis t.millis ++ "-" ++ hex4 t.counter ++ "-" ++ nodePad16 t.node)
  else none

/-- `Timestamp::hash`: MurmurHash3 x86/32 with seed 0 over the UTF-8
bytes of the canonical serialization; `none` models the panic of the
`unwrap` inside `to_string`. -/
def Timestamp.hash (t : Timestamp) : Option Nat :=
  t.to_string.map (fun s => murmur3_32 (strBytes s) 0)

/-- The error cases of `TimestampError` in `src/timestamp.rs`. -/
inductive TimestampError where
  | clockDriftError (lNew phys maxDrift : Int)
  | overflowError
  | duplicateNodeError (node : String)
deriving DecidableEq

/-- `MAX_DRIFT` from `src/timestamp.rs`, in milliseconds. -/
def MAX_DRIFT : Int := 60000

/-- `u16::checked_add(1)` on a counter value: `none` exactly when the
increment would leave the `u16` range `0 ..= 65535`. -/
def u16CheckedSucc (c : Nat) : Option Nat :=
  if c + 1 ≤ 65535 then some (c + 1) else none

/-- `Timestamp::send`: the pair is (returned value, clock state after
the call); `&mut self` early returns leave the state unchanged.  The
Rust locals `l_old = clock.millis`, `c_old = clock.counter` and
`l_new = max(l_old, phys)` are inlined. -/
def Timestamp.send (clock : Timestamp) (phys : Int) :
    Except TimestampError Timestamp × Timestamp :=
  match (if clock.millis = max clock.millis phys
         then u16CheckedSucc clock.counter else some 0) with
  | none => (.error .overflowError, clock)
  | some cNew =>
    if max clock.millis phys - phys > MAX_DRIFT then
      (.error (.clockDriftError (max clock.millis phys) phys MAX_DRIFT), clock)
    else
      (.ok ⟨max clock.millis phys, cNew, clock.node⟩,
       ⟨max clock.millis phys, cNew, clock.node⟩)

/-- `Timestamp::recv`: the pair is (returned value, clock state after
the call).  The Rust locals `l_msg = msg.millis`, `c_msg = msg.counter`,
`l_old = clock.millis`, `c_old = clock.counter` and
`l_new = max(max(l_old, phys), l_msg)` are inlined. -/
def Timestamp.recv (clock msg : Timestamp) (phys : Int) :
    Except TimestampError Timestamp × Timestamp :=
  if msg.node = clock.node then
    (.error (.duplicateNodeError clock.node), clock)
  else if msg.millis > phys ∧ msg.millis - phys > MAX_DRIFT then
    (.error (.clockDriftError msg.millis phys MAX_DRIFT), clock)
  else
    match (if max (max clock.millis phys) msg.millis = clock.millis ∧
              max (max clock.millis phys) msg.millis = msg.millis
           then u16CheckedSucc (max clock.counter msg.counter)
           else if max (max clock.millis phys) msg.millis = clock.millis
           then u16CheckedSucc clock.counter
           else if max (max clock.millis phys) msg.millis = msg.millis
           then u16CheckedSucc msg.counter
           else some 0) with
    | none => (.error .overflowError, clock)
    | some cNew =>
      if max (max clock.millis phys) msg.millis > phys ∧
         max (max clock.millis phys) msg.millis - phys > MAX_DRIFT then
        (.error (.clockDriftError (max (max clock.millis phys) msg.millis) phys MAX_DRIFT),
         clock)
      else
        (.ok ⟨max (max clock.millis phys) msg.millis, cNew, clock.node⟩,
         ⟨max (max clock.millis phys) msg.millis, cNew, clock.node⟩)

/-! ### `Trie` (src/trie.rs)

The Rust trie is `hash : u64` plus `children : BTreeMap<String, Trie>`.
Every key ever inserted in a child map is a single base-3 digit
character `"0"`, `"1"` or `"2"` (`millis_to_base3` emits only those,
and `prune`'s binary keys are a subset), so the child map is embedded
as three optional slots; `BTreeMap` iteration order is the digit order
`"0" < "1" < "2"`. -/

/-- A single trie-key character: `'0'`, `'1'` or `'2'`. -/
inductive Digit where
  | d0
  | d1
  | d2
deriving DecidableEq

/-- The character a digit denotes. -/
def Digit.char : Digit → Char
  | .d0 => '0'
  | .d1 => '1'
  | .d2 => '2'

/-- The numeric value of a digit. -/
def Digit.val : Digit → Nat
  | .d0 => 0
  | .d1 => 1
  | .d2 => 2

/-- The digit of a remainder modulo 3. -/
def digitOfNat (n : Nat) : Digit :=
  if n = 0 then .d0 else if n = 1 then .d1 else .d2

/-- The string a digit list denotes (child keys joined, as in the Rust
code, which stores one-character strings). -/
def digitsToString (l : List Digit) : String :=
  String.mk (l.map Digit.char)

/-- Base-3 digits of `n`, least significant first (the loop body of
`millis_to_base3`).  `fuel` only bounds the recursion structurally;
any `fuel ≥ n` computes all digits. -/
def base3Aux (fuel n : Nat) : List Digit :=
  match fuel with
  | 0 => []
  | fuel + 1 => if n = 0 then [] else digitOfNat (n % 3) :: base3Aux fuel (n / 3)

/-- `millis_to_base3` from src/trie.rs: `"0"` for zero, otherwise the
base-3 digits of a positive value, and the empty string for negative
values (the Rust `while millis > 0` loop never runs). -/
def millis_to_base3 (millis : Int) : List Digit :=
  if millis = 0 then [.d0] else (base3Aux millis.toNat millis.toNat).reverse

/-- Binary digits of `n`, least significant first (`format!("{:b}", n)`
loop), with structural fuel. -/
def binaryAux (fuel n : Nat) : List Digit :=
  match fuel with
  | 0 => []
  | fuel + 1 =>
    if n = 0 then [] else (if n % 2 = 1 then Digit.d1 else Digit.d0) :: binaryAux fuel (n / 2)

/-- Rust `format!("{:b}", n)` on a `u64`, as a digit list (`"0"` for
zero, no leading zeros otherwise). -/
def natToBinary (n : Nat) : List Digit :=
  if n = 0 then [.d0] else (binaryAux n n).reverse

/-- The trie node of src/trie.rs: `hash : u64` and the three possible
children `"0"`, `"1"`, `"2"`. -/
inductive Trie where
  | mk (hash : Nat) (c0 c1 c2 : Option Trie)

/-- The `hash` field. -/
def Trie.hash : Trie → Nat
  | .mk h _ _ _ => h

/-- `children.get(d)`. -/
def Trie.child : Trie → Digit → Option Trie
  | .mk _ a _ _, .d0 => a
  | .mk _ _ b _, .d1 => b
  | .mk _ _ _ c, .d2 => c

/-- Replace one child slot (`children.insert` / `children.remove`). -/
def Trie.setChild : Trie → Digit → Option Trie → Trie
  | .mk h _ b c, .d0, x => .mk h x b c
  | .mk h a _ c, .d1, x => .mk h a x c
  | .mk h a b _, .d2, x => .mk h a b x

/-- `self.hash ^= x`. -/
def Trie.xorHash : Trie → Nat → Trie
  | .mk h a b c, x => .mk (h ^^^ x) a b c

/-- `children.is_empty()`. -/
def Trie.childless : Trie → Bool
  | .mk _ none none none => true
  | _ => false

/-- `Trie::new()`: hash 0, no children. -/
def Trie.new : Trie := .mk 0 none none none

/-- `Trie::insert_key` from src/trie.rs: stop on the empty key;
otherwise fetch or create the child for the first character, XOR the
timestamp hash into it, and recurse with the remaining suffix.  The
node's own hash is not touched here. -/
def Trie.insert_key (t : Trie) (key : List Digit) (hash : Nat) : Trie :=
  match key with
  | [] => t
  | d :: rest =>
    t.setChild d (some ((((t.child d).getD Trie.new).xorHash hash).insert_key rest hash))

/-- The key `Trie::insert` derives for a timestamp:
`millis_to_base3(timestamp.ts_minutes())` — the spec's
`timestamp_to_key`.  Note that the code does not left-pad. -/
def timestamp_to_key (t : Timestamp) : List Digit :=
  millis_to_base3 t.ts_minutes

/-- `Trie::insert`: hash the timestamp (`none` models the panic inside
`Timestamp::to_string` for out-of-range millis), XOR the hash into the
root, and walk the base-3 key. -/
def Trie.insert (tr : Trie) (timestamp : Timestamp) : Option Trie :=
  timestamp.hash.map fun h =>
    (tr.xorHash h).insert_key (timestamp_to_key timestamp) h

/-- One iteration of the `build` loop: feed a timestamp to `insert`
unless an earlier insert already panicked. -/
def insertStep (acc : Option Trie) (t : Timestamp) : Option Trie :=
  acc.bind (fun tr => tr.insert t)

/-- `Trie::build`: fold `insert` over the input, starting from the
empty trie; a panic anywhere (`none`) aborts the build. -/
def Trie.build (timestamps : List Timestamp) : Option Trie :=
  timestamps.foldl insertStep (some Trie.new)

/-- `Trie::key_to_timestamp`: right-pad the key with `'0'` to width 16
(`format!("{:0<16}", key)`), parse it as base 3, multiply by
`1000 * 60` and divide the result by 1000. -/
def Trie.key_to_timestamp (key : List Digit) : Int :=
  let fullKey := key ++ List.replicate (16 - key.length) Digit.d0
  let millis : Int := (fullKey.foldl (fun acc d => acc * 3 + d.val) 0 : Nat) * 1000 * 60
  millis / 1000

/-- `Trie::diff_recursive`: equal hashes mean no divergence; otherwise
walk the receiver's children in `BTreeMap` (digit) order, stopping at
the first child that is missing on the other side or whose hash
differs; a child with an equal hash is recursed into, and exhausting
the children yields `None`.  The returned list is the path pushed onto
`path`, relative to the current node. -/
def Trie.diff_recursive : Trie → Trie → Option (List Digit)
  | .mk h a b c, .mk oh oa ob oc =>
    if h = oh then none
    else
      (match a, oa with
       | none, _ => none
       | some _, none => some [Digit.d0]
       | some ch, some och =>
         if ch.hash ≠ och.hash then some [Digit.d0]
         else (ch.diff_recursive och).map (fun p => Digit.d0 :: p)).orElse fun _ =>
      (match b, ob with
       | none, _ => none
       | some _, none => some [Digit.d1]
       | some ch, some och =>
         if ch.hash ≠ och.hash then some [Digit.d1]
         else (ch.diff_recursive och).map (fun p => Digit.d1 :: p)).orElse fun _ =>
      match c, oc with
      | none, _ => none
      | some _, none => some [Digit.d2]
      | some ch, some och =>
        if ch.hash ≠ och.hash then some [Digit.d2]
        else (ch.diff_recursive och).map (fun p => Digit.d2 :: p)

/-- `Trie::diff`: convert the divergence path (joined child keys) with
`key_to_timestamp`. -/
def Trie.diff (t other : Trie) : Option Int :=
  (t.diff_recursive other).map Trie.key_to_timestamp

/-- `Trie::prune_key`: on a non-empty key, recursively prune the child
for the first character when it exists, dropping it if it ends up with
no children, and XOR the hash into the current node unconditionally. -/
def Trie.prune_key (t : Trie) (key : List Digit) (hash : Nat) : Trie :=
  match key with
  | [] => t
  | d :: rest =>
    let t1 :=
      match t.child d with
      | none => t
      | some child =>
        let child2 := child.prune_key rest hash
        if child2.childless then t.setChild d none else t.setChild d (some child2)
    t1.xorHash hash

/-- `Trie::prune` from src/trie.rs: takes a raw `u64`, uses the value
itself as the hash ("simplified hash function"), buckets it into
minutes, keys by the binary representation, XORs the root and walks
`prune_key`. -/
def Trie.prune (t : Trie) (timestamp : Nat) : Trie :=
  let hash := timestamp
  let minutes := timestamp / (1000 * 60)
  let key := natToBinary minutes
  (t.xorHash hash).prune_key key hash

end Markle

namespace Markle

set_option maxRecDepth 20000

/-- Sanity: the repository's own `test_to_string` vectors. -/
theorem to_string_test_vectors :
    Timestamp.to_string ⟨1, 0x1234, "1234123412341234"⟩ =
      some "1970-01-01T00:00:00.001Z-1234-1234123412341234" ∧
    Timestamp.to_string ⟨1711231855000, 65534, "1234123412341234"⟩ =
      some "2024-03-23T22:10:55.000Z-FFFE-1234123412341234" := by
  constructor <;> decide

/-- Sanity: published MurmurHash3 x86/32 seed-0 test vectors. -/
theorem murmur3_test_vectors :
    murmur3_32 (strBytes "") 0 = 0 ∧
    murmur3_32 (strBytes "hello") 0 = 0x248bfa47 ∧
    murmur3_32 (strBytes "The quick brown fox jumps over the lazy dog") 0 =
      0x2e4ff723 := by
  refine ⟨by decide, by decide, by decide⟩

/-- C1: on the spec's own divergence-detection scenario
(`t_i = Timestamp(i * 60_000, 0, fresh node)`,
`A = build([t4, t3, t1])`, `B = build([t5, t4, t2, t1])`), the code
returns `Some(860_934_420)` — `3 ^ 15 * 60`, because `insert` derives
unpadded base-3 keys, `diff_recursive` stops at the first child of the
receiver whose hash differs, and `key_to_timestamp` scales the parsed
minute by 60 — not `Some(2 * 60_000)` as the claim states. -/
theorem C1_diff_concrete_result :
    (match Trie.build [⟨240000, 0, "0000000000000004"⟩, ⟨180000, 0, "0000000000000003"⟩,
                       ⟨60000, 0, "0000000000000001"⟩],
           Trie.build [⟨300000, 0, "0000000000000005"⟩, ⟨240000, 0, "0000000000000004"⟩,
                       ⟨120000, 0, "0000000000000002"⟩, ⟨60000, 0, "0000000000000001"⟩] with
     | some a, some b => a.diff b
     | _, _ => none) = some 860934420 ∧ (860934420 : Int) ≠ 2 * 60000 := by
  exact ⟨by decide, by decide⟩

/-- C2: the key `insert` derives for `millis = 0` is the single
character `"0"`, not a 16-character left-padded key, refuting the
left-padding part of the claim (the spec itself brands this unpadded
variant a bug); the claim's concrete example happens to agree with the
code because the base-3 form of minute 28_333_333 already has 16
digits. -/
theorem C2_insert_key_unpadded :
    digitsToString (timestamp_to_key ⟨0, 0, "1234123412341234"⟩) = "0" ∧
    (timestamp_to_key ⟨0, 0, "1234123412341234"⟩).length ≠ 16 ∧
    digitsToString (timestamp_to_key ⟨1699999980000, 0, "1234123412341234"⟩) =
      "1222022111000201" := by
  exact ⟨by decide, by decide, by decide⟩

/-- C3 counterexample: `key_to_timestamp("1222022111000201")` evaluates
to `1_699_999_980` (the code multiplies the parsed minute by
`1000 * 60` and then divides by 1000), not `1_699_999_980_000` as the
claim states. -/
theorem C3_key_to_timestamp_counterexample :
    Trie.key_to_timestamp
        [.d1, .d2, .d2, .d2, .d0, .d2, .d2, .d1, .d1, .d1, .d0, .d0, .d0, .d2, .d0, .d1] =
      1699999980 ∧ (1699999980 : Int) ≠ 1699999980000 := by
  exact ⟨by decide, by decide⟩

/-- C8: inserting `Timestamp(60_000, 0, "1234123412341234")` into the
empty trie and then pruning the same minute (`prune(60_000)`) leaves
the root hash at the timestamp's murmur hash 2_155_134_717 instead of
restoring it to 0: `prune` XORs the raw `u64` with a binary key instead
of the inserted murmur hash with the base-3 key (and XORs the root
twice), so it is not the inverse of `insert`. -/
theorem C8_insert_prune_not_inverse :
    (Trie.insert Trie.new ⟨60000, 0, "1234123412341234"⟩).map
        (fun tr => (tr.prune 60000).hash) = some 2155134717 ∧
    (2155134717 : Nat) ≠ Trie.new.hash := by
  exact ⟨by decide, by decide⟩

/-- C9 counterexample: `insert` is not total over all `i64` millis —
at `millis = i64::MAX` the `unwrap` inside `Timestamp::to_string`
panics (`from_timestamp_millis` is out of chrono's date range), refuting
"the timestamp hashing performed inside insert never fails for any
representable millis value". -/
theorem C9_insert_out_of_range :
    (Trie.insert Trie.new ⟨9223372036854775807, 0, "1234123412341234"⟩).isSome = false := by
  decide

/-- Division of `p * 1000 * 60` by 1000 is exact. -/
theorem mul_60000_div_1000 (p : Int) : p * 1000 * 60 / 1000 = p * 60 := by
  rw [show p * 1000 * 60 = p * 60 * 1000 by ring]
  exact Int.mul_ediv_cancel _ (by norm_num)

/-- C3 (amended): for every key over `{'0','1','2'}` of length at most
16, `key_to_timestamp` right-pads the key with `'0'` to width 16,
parses it as base 3 into `m`, and returns `m * 60` (seconds scale: the
code computes `m * 1000 * 60` and divides by 1000), with
`key_to_timestamp("0") = 0` and
`key_to_timestamp("1222022111000201") = 1_699_999_980`. -/
theorem C3_key_to_timestamp_amended :
    (∀ key : List Digit, key.length ≤ 16 →
      Trie.key_to_timestamp key =
        ((key ++ List.replicate (16 - key.length) Digit.d0).foldl
            (fun acc d => acc * 3 + d.val) 0 : Nat) * 60) ∧
    Trie.key_to_timestamp [Digit.d0] = 0 ∧
    Trie.key_to_timestamp
        [.d1, .d2, .d2, .d2, .d0, .d2, .d2, .d1, .d1, .d1, .d0, .d0, .d0, .d2, .d0, .d1] =
      1699999980 := by
  refine ⟨fun key _ => ?_, by decide, by decide⟩
  exact mul_60000_div_1000 _

/-- Witness for C3: the amended equation applied at the key `"0"`. -/
theorem C3_key_to_timestamp_witness :
    Trie.key_to_timestamp [Digit.d0] =
      (([Digit.d0] ++ List.replicate (16 - [Digit.d0].length) Digit.d0).foldl
          (fun acc d => acc * 3 + d.val) 0 : Nat) * 60 :=
  C3_key_to_timestamp_amended.1 [Digit.d0] (by decide)

/-- C9 (amended): `insert` returns normally exactly when the
timestamp's millis lie in chrono's representable date range; inside the
range the hashing in `insert` always succeeds (for any counter and any
node string), outside it the `unwrap` in `to_string` panics. -/
theorem C9_insert_total_iff (tr : Trie) (t : Timestamp) :
    (tr.insert t).isSome ↔ inChronoRange t.millis = true := by
  unfold Trie.insert Timestamp.hash Timestamp.to_string
  cases hb : inChronoRange t.millis <;> simp [hb]

/-- Witness for C9: totality at a concrete in-range timestamp. -/
theorem C9_insert_total_witness :
    (Trie.new.insert ⟨60000, 0, "1234123412341234"⟩).isSome :=
  (C9_insert_total_iff Trie.new ⟨60000, 0, "1234123412341234"⟩).mpr (by decide)

/-- C10: if the receiver has no children, `diff` returns `None` for
every other trie — even a non-empty one with a different root hash —
because `diff_recursive` only iterates over the receiver's own
children. -/
theorem C10_diff_childless_none (h : Nat) (other : Trie) :
    (Trie.mk h none none none).diff other = none := by
  obtain ⟨oh, oa, ob, oc⟩ := other
  unfold Trie.diff Trie.diff_recursive
  by_cases hh : h = oh <;> simp [hh]

/-- C4: `send` sets the logical time to `max(old millis, phys)`; when
the logical time is unchanged the counter is incremented, with
`OverflowError` when the increment would exceed 65535, and otherwise
the counter resets to 0; concretely
`Clock(1, 0, N).send(2) = Timestamp(2, 0, N)` and
`Clock(1, 0xFFFF, N).send(1)` fails with `OverflowError`. -/
theorem C4_send_semantics (clock : Timestamp) (phys : Int) :
    (∀ t : Timestamp, (clock.send phys).1 = .ok t →
      t.millis = max clock.millis phys ∧
      t.counter = if clock.millis = max clock.millis phys then clock.counter + 1 else 0) ∧
    (clock.millis = max clock.millis phys → clock.counter + 1 > 65535 →
      (clock.send phys).1 = .error .overflowError) ∧
    Timestamp.send ⟨1, 0, "1234123412341234"⟩ 2 =
      (.ok ⟨2, 0, "1234123412341234"⟩, ⟨2, 0, "1234123412341234"⟩) ∧
    (Timestamp.send ⟨1, 65535, "1234123412341234"⟩ 1).1 = .error .overflowError := by
  refine ⟨?_, ?_, by rfl, by rfl⟩
  · intro t ht
    unfold Timestamp.send at ht
    split at ht
    · simp at ht
    · next cNew hsome =>
      split at ht
      · simp at ht
      · simp only [Except.ok.injEq] at ht
        subst ht
        refine ⟨rfl, ?_⟩
        split at hsome
        · next hml =>
          unfold u16CheckedSucc at hsome
          split at hsome
          · simp only [Option.some.injEq] at hsome
            rw [if_pos hml]
            exact hsome.symm
          · simp at hsome
        · next hml =>
          simp only [Option.some.injEq] at hsome
          rw [if_neg hml]
          exact hsome.symm
  · intro hml hc
    unfold Timestamp.send
    rw [if_pos hml]
    unfold u16CheckedSucc
    rw [if_neg (by omega)]

/-- Witness for C4: the success-path characterization at
`Clock(1, 0, N).send(2)`. -/
theorem C4_send_witness :
    (Timestamp.mk 2 0 "1234123412341234").millis = max (1 : Int) 2 ∧
    (Timestamp.mk 2 0 "1234123412341234").counter =
      if (1 : Int) = max (1 : Int) 2 then 0 + 1 else 0 :=
  (C4_send_semantics ⟨1, 0, "1234123412341234"⟩ 2).1 ⟨2, 0, "1234123412341234"⟩ (by rfl)

/-- C5: whenever `send` or `recv` returns an error, the clock state is
exactly as it was before the call — state is committed only on the
success path. -/
theorem C5_clock_error_atomicity (clock msg : Timestamp) (phys : Int) :
    (∀ e : TimestampError, (clock.send phys).1 = .error e → (clock.send phys).2 = clock) ∧
    (∀ e : TimestampError,
      (clock.recv msg phys).1 = .error e → (clock.recv msg phys).2 = clock) := by
  constructor
  · intro e
    unfold Timestamp.send
    split
    · intro _; rfl
    · split
      · intro _; rfl
      · intro he; simp at he
  · intro e
    unfold Timestamp.recv
    split
    · intro _; rfl
    · split
      · intro _; rfl
      · split
        · intro _; rfl
        · split
          · intro _; rfl
          · intro he; simp at he

/-- Witness for C5: atomicity at a concrete overflow failure of `send`. -/
theorem C5_atomicity_witness :
    (Timestamp.send ⟨1, 65535, "1234123412341234"⟩ 1).2 = ⟨1, 65535, "1234123412341234"⟩ :=
  (C5_clock_error_atomicity ⟨1, 65535, "1234123412341234"⟩ ⟨0, 0, "x"⟩ 0).1
    .overflowError (by rfl)

/-- C6: on `recv` from a different node, when the first drift guard
passes and `l_new = max(l_old, phys, l_msg)` equals both `l_old` and
`l_msg`, the new counter is `max(c_old, c_msg) + 1`, and the call fails
with `OverflowError` exactly when that addition would exceed 65535. -/
theorem C6_recv_equal_times_counter (clock msg : Timestamp) (phys : Int)
    (hnode : ¬ msg.node = clock.node)
    (hdrift : ¬ (msg.millis > phys ∧ msg.millis - phys > MAX_DRIFT))
    (hold : max (max clock.millis phys) msg.millis = clock.millis)
    (hmsg : max (max clock.millis phys) msg.millis = msg.millis) :
    (max clock.counter msg.counter + 1 ≤ 65535 →
      (clock.recv msg phys).1 =
        .ok ⟨clock.millis, max clock.counter msg.counter + 1, clock.node⟩) ∧
    (max clock.counter msg.counter + 1 > 65535 →
      (clock.recv msg phys).1 = .error .overflowError) := by
  have hdrift2 : ¬ (max (max clock.millis phys) msg.millis > phys ∧
      max (max clock.millis phys) msg.millis - phys > MAX_DRIFT) := by
    rw [hmsg]; exact hdrift
  constructor
  · intro hc
    unfold Timestamp.recv
    rw [if_neg hnode, if_neg hdrift, if_pos (And.intro hold hmsg)]
    unfold u16CheckedSucc
    rw [if_pos hc]
    simp only []
    rw [if_neg hdrift2, hold]
  · intro hc
    unfold Timestamp.recv
    rw [if_neg hnode, if_neg hdrift, if_pos (And.intro hold hmsg)]
    unfold u16CheckedSucc
    rw [if_neg (by omega)]

/-- Witness for C6: `Clock(5, 3, "a").recv(Timestamp(5, 7, "b"), 5)`
yields counter `max(3, 7) + 1 = 8`. -/
theorem C6_recv_witness :
    (Timestamp.recv ⟨5, 3, "a"⟩ ⟨5, 7, "b"⟩ 5).1 = .ok ⟨5, 8, "a"⟩ :=
  (C6_recv_equal_times_counter ⟨5, 3, "a"⟩ ⟨5, 7, "b"⟩ 5 (by decide) (by decide)
    (by decide) (by decide)).1 (by decide)

/-- `xorHash` does not change the children. -/
theorem Trie.child_xorHash (t : Trie) (x : Nat) (d : Digit) :
    (t.xorHash x).child d = t.child d := by
  cases t; cases d <;> rfl

/-- `xorHash` commutes with replacing a child. -/
theorem Trie.setChild_xorHash (t : Trie) (x : Nat) (d : Digit) (c : Option Trie) :
    (t.xorHash x).setChild d c = (t.setChild d c).xorHash x := by
  cases t; cases d <;> rfl

/-- Two hash XORs commute (XOR is commutative and associative). -/
theorem Trie.xorHash_xorHash (t : Trie) (x y : Nat) :
    (t.xorHash x).xorHash y = (t.xorHash y).xorHash x := by
  cases t with
  | mk h a b c =>
    simp only [Trie.xorHash, Trie.mk.injEq, and_true]
    rw [Nat.xor_assoc, Nat.xor_assoc, Nat.xor_comm x y]

/-- Reading back the slot just written. -/
theorem Trie.child_setChild_same (t : Trie) (d : Digit) (c : Option Trie) :
    (t.setChild d c).child d = c := by
  cases t; cases d <;> rfl

/-- Writing one slot leaves the others unchanged. -/
theorem Trie.child_setChild_ne (t : Trie) (d e : Digit) (c : Option Trie) (hne : d ≠ e) :
    (t.setChild d c).child e = t.child e := by
  cases t; cases d <;> cases e <;> first | exact absurd rfl hne | rfl

/-- Overwriting the same slot keeps only the second write. -/
theorem Trie.setChild_setChild_same (t : Trie) (d : Digit) (c1 c2 : Option Trie) :
    (t.setChild d c1).setChild d c2 = t.setChild d c2 := by
  cases t; cases d <;> rfl

/-- Writes to distinct slots commute. -/
theorem Trie.setChild_setChild_ne (t : Trie) (d e : Digit) (c1 c2 : Option Trie)
    (hne : d ≠ e) :
    (t.setChild d c1).setChild e c2 = (t.setChild e c2).setChild d c1 := by
  cases t; cases d <;> cases e <;> first | exact absurd rfl hne | rfl

/-- `insert_key` never touches the root's own hash, so it commutes with
a root XOR. -/
theorem Trie.insert_key_xorHash (k : List Digit) (h x : Nat) (t : Trie) :
    (t.xorHash x).insert_key k h = (t.insert_key k h).xorHash x := by
  cases k with
  | nil => rfl
  | cons d rest =>
    unfold Trie.insert_key
    rw [Trie.child_xorHash, Trie.setChild_xorHash]

/-- Two `insert_key` walks commute: they only XOR hashes along their
paths and create the same children either way. -/
theorem Trie.insert_key_comm (k1 : List Digit) :
    ∀ (k2 : List Digit) (h1 h2 : Nat) (t : Trie),
      (t.insert_key k1 h1).insert_key k2 h2 = (t.insert_key k2 h2).insert_key k1 h1 := by
  induction k1 with
  | nil => intro k2 h1 h2 t; rfl
  | cons e1 r1 ih =>
    intro k2 h1 h2 t
    cases k2 with
    | nil => rfl
    | cons e2 r2 =>
      by_cases hd : e1 = e2
      · subst hd
        simp only [Trie.insert_key]
        simp only [Trie.child_setChild_same, Trie.setChild_setChild_same, Option.getD_some]
        rw [← Trie.insert_key_xorHash, ← Trie.insert_key_xorHash, Trie.xorHash_xorHash]
        rw [ih r2 h1 h2]
      · simp only [Trie.insert_key]
        rw [Trie.child_setChild_ne _ _ _ _ hd, Trie.child_setChild_ne _ _ _ _ (Ne.symm hd),
            Trie.setChild_setChild_ne _ _ _ _ _ hd]

/-- Two `insert` iterations of the `build` loop commute, panics
included. -/
theorem insertStep_comm (a b : Timestamp) (o : Option Trie) :
    insertStep (insertStep o a) b = insertStep (insertStep o b) a := by
  cases o with
  | none => rfl
  | some tr =>
    unfold insertStep Trie.insert
    cases ha : a.hash with
    | none => cases hb : b.hash <;> simp [ha, hb]
    | some hav =>
      cases hb : b.hash with
      | none => simp [ha, hb]
      | some hbv =>
        simp
        rw [← Trie.insert_key_xorHash, ← Trie.insert_key_xorHash, Trie.xorHash_xorHash]
        exact Trie.insert_key_comm _ _ _ _ _

/-- Folding the `build` loop over a permuted list gives the same trie. -/
theorem foldl_insertStep_perm {l1 l2 : List Timestamp} (p : l1.Perm l2) :
    ∀ o : Option Trie, l1.foldl insertStep o = l2.foldl insertStep o := by
  induction p with
  | nil => intro o; rfl
  | cons x _ ih => intro o; simp only [List.foldl_cons]; exact ih _
  | swap x y l => intro o; simp only [List.foldl_cons]; rw [insertStep_comm]
  | trans _ _ ih1 ih2 => intro o; rw [ih1, ih2]

/-- C7: `build` is order-independent — for every permutation of the
input multiset the built tries are equal as trees, so the root hash and
the hash of every corresponding node coincide (each node's hash is the
XOR of the hashes of the timestamps in its subtree, and XOR is
commutative and associative). -/
theorem C7_build_order_independence (S1 S2 : List Timestamp) (hperm : S1.Perm S2) :
    Trie.build S1 = Trie.build S2 :=
  foldl_insertStep_perm hperm (some Trie.new)

/-- Witness for C7: a concrete two-element swap. -/
theorem C7_build_witness :
    Trie.build [⟨60000, 0, "0000000000000001"⟩, ⟨120000, 0, "0000000000000002"⟩] =
      Trie.build [⟨120000, 0, "0000000000000002"⟩, ⟨60000, 0, "0000000000000001"⟩] :=
  C7_build_order_independence _ _ (List.Perm.swap _ _ _)

end Markle
